import Mathlib

/-!
# Icon picker (`static/js/partials/icon_picker.js`)

A shallow embedding of the icon-picker widget and a verification of its
filtering, selection and modal behaviour.

Conventions of the embedding.

* The state of one picker is the closure variable `currentValue` together with
  the parts of the DOM that the script reads or writes: the value of the
  backing input, the markup of the preview slot, the class list of the modal
  backdrop, the value and focus of the search field, and the children of the
  grid container.
* Every handler of the script is a list of primitive statements (`Stmt`), one
  per DOM mutation or call, in source order; `exec` folds them over the state.
  The intermediate states of a handler are therefore observable (`statesOf`).
* A string is its sequence of characters, and `includes` looks for a contiguous
  run of characters.
* `String.prototype.toLowerCase` is a built-in of the JavaScript runtime.  It is
  Unicode-aware (for instance it sends the Kelvin sign U+212A to the ASCII
  letter `k`), so it is taken as a parameter `toLowerCase : String → String`;
  `JSLowerCase` records the part of its behaviour that is used, namely what it
  does on pure ASCII strings.
* `lucide.createIcons(root)` is an external glyph renderer.  The state records
  the markup written by the script; that the renderer has been run over a
  subtree since its last rewrite is recorded in a flag of its own.
-/

namespace IconPicker

/-! ## Catalog -/

/-- The catalog `LUCIDE_ICONS`, in source order. -/
def LUCIDE_ICONS : List String :=
  [ "heart", "star", "gift", "bookmark", "shopping-bag",
    "user", "users", "home", "calendar", "list",
    "music", "camera", "film", "gamepad-2", "plane",
    "book", "coffee", "pizza", "smile", "sun" ]

/-! ## JavaScript string built-ins -/

/-- `s.includes(search)`: does `search` occur in `s` as a contiguous run of
characters?  Scans the suffixes of `s` from left to right. -/
def includes (s search : String) : Bool :=
  s.data.tails.any (fun u => search.data.isPrefixOf u)

/-- Lower-casing restricted to ASCII: `A`..`Z` go to `a`..`z`, every other
character stays.  Used as a concrete stand-in for `toLowerCase` on ASCII
input. -/
def asciiLower (s : String) : String :=
  ⟨s.data.map Char.toLower⟩

/-- What is assumed of the runtime's `toLowerCase`: on a string made of ASCII
characters only it lower-cases the letters `A`..`Z` and keeps the rest. -/
def JSLowerCase (toLowerCase : String → String) : Prop :=
  ∀ s : String, (∀ c ∈ s.data, c.toNat < 128) → toLowerCase s = asciiLower s

/-- `v || ""` for a value that is a string or `undefined`. -/
def orEmpty : Option String → String
  | some v => v
  | none => ""

/-! ## DOM state -/

/-- A child of the grid container.  `onClick` is the `name` captured by the
click listener that `renderIcons` attaches, `none` for an element that has no
such listener. -/
structure Button where
  type : String
  className : String
  iconName : String
  innerHTML : String
  onClick : Option String
deriving DecidableEq, Repr

/-- A child that the grid container holds in the page markup, before the script
runs: it has no listener of the script. -/
structure StaticChild where
  className : String
  iconName : String
  innerHTML : String
deriving DecidableEq, Repr

/-- The picker subtree as found in the page by `initIconPickers`. -/
structure Page where
  inputValue : Option String
  previewHTML : String
  backdropClasses : List String
  searchValue : String
  searchFocused : Bool
  gridChildren : List StaticChild
deriving DecidableEq, Repr

/-- State of one picker: the closure variable `currentValue` and the DOM parts
the script touches. -/
structure Picker where
  currentValue : String
  inputValue : Option String
  previewHTML : String
  previewGlyphs : Bool
  backdropClasses : List String
  searchValue : String
  searchFocused : Bool
  grid : List Button
  gridGlyphs : Bool
deriving DecidableEq, Repr

/-- `classList.add(c)`. -/
def classListAdd (cs : List String) (c : String) : List String :=
  if c ∈ cs then cs else cs ++ [c]

/-- `classList.remove(c)`. -/
def classListRemove (cs : List String) (c : String) : List String :=
  cs.filter (fun d => d ≠ c)

/-- The modal is visible when the backdrop does not carry the class `hidden`. -/
def isOpen (s : Picker) : Bool :=
  decide ("hidden" ∉ s.backdropClasses)

/-! ## Markup produced by the script -/

/-- The glyph placeholder: an `i` element whose `data-lucide` attribute is the
icon name. -/
def placeholder (name : String) : String :=
  "<i data-lucide=\"" ++ name ++ "\"></i>"

/-- Style of the entry that equals `currentValue`. -/
def selectedStyle : String := "border-indigo-500 ring-2 ring-indigo-300"

/-- Style of every other entry. -/
def plainStyle : String := "border-gray-200"

/-- The `className` given to the button of `name`. -/
def buttonClass (currentValue name : String) : String :=
  " ".intercalate
    [ "flex flex-col items-center justify-center gap-1 rounded-md border",
      "px-2 py-2 hover:bg-gray-50 text-xs",
      if currentValue = name then selectedStyle else plainStyle ]

/-- The `innerHTML` given to the button of `name`. -/
def buttonHTML (name : String) : String :=
  "\n          <span class=\"w-6 h-6 flex items-center justify-center\">\n            "
    ++ placeholder name
    ++ "\n          </span>\n          <span class=\"truncate w-full text-[10px]\">"
    ++ name ++ "</span>\n        "

/-- The button that one round of the `forEach` in `renderIcons` builds. -/
def mkButton (currentValue name : String) : Button :=
  { type := "button"
    className := buttonClass currentValue name
    iconName := name
    innerHTML := buttonHTML name
    onClick := some name }

/-- An entry is marked selected when its class carries the highlighted
border/ring style. -/
def isMarked (b : Button) : Bool :=
  includes b.className selectedStyle

/-! ## Statements -/

/-- The subtree handed to `lucide.createIcons`. -/
inductive Subtree where
  | preview
  | grid
deriving DecidableEq, Repr

/-- The primitive statements of the handlers. -/
inductive Stmt where
  /-- `currentValue = v` -/
  | setCurrentValue (v : String)
  /-- `input.value = v` -/
  | setInputValue (v : String)
  /-- `preview.innerHTML = html` -/
  | setPreviewHTML (html : String)
  /-- `lucide.createIcons(root)` -/
  | createIcons (root : Subtree)
  /-- `grid.innerHTML = ""` -/
  | gridClear
  /-- one round of `icons.forEach`: build the button of `name`, append it -/
  | gridAppend (name : String)
  /-- `modalBackdrop.classList.add(c)` -/
  | backdropAdd (c : String)
  /-- `modalBackdrop.classList.remove(c)` -/
  | backdropRemove (c : String)
  /-- `searchInput.value = v` -/
  | setSearchValue (v : String)
  /-- `searchInput.focus()` -/
  | focusSearch
deriving DecidableEq, Repr

/-- Effect of one statement. -/
def Stmt.run : Stmt → Picker → Picker
  | .setCurrentValue v, s => { s with currentValue := v }
  | .setInputValue v, s => { s with inputValue := some v }
  | .setPreviewHTML html, s => { s with previewHTML := html, previewGlyphs := false }
  | .createIcons .preview, s => { s with previewGlyphs := true }
  | .createIcons .grid, s => { s with gridGlyphs := true }
  | .gridClear, s => { s with grid := [], gridGlyphs := false }
  | .gridAppend name, s =>
      { s with grid := s.grid ++ [mkButton s.currentValue name], gridGlyphs := false }
  | .backdropAdd c, s => { s with backdropClasses := classListAdd s.backdropClasses c }
  | .backdropRemove c, s => { s with backdropClasses := classListRemove s.backdropClasses c }
  | .setSearchValue v, s => { s with searchValue := v }
  | .focusSearch, s => { s with searchFocused := true }

/-- Run a statement list from left to right. -/
def exec (body : List Stmt) (s : Picker) : Picker :=
  body.foldl (fun t st => st.run t) s

/-- The states a statement list passes through: the start state, then the state
after each statement. -/
def statesOf : List Stmt → Picker → List Picker
  | [], s => [s]
  | st :: rest, s => s :: statesOf rest (st.run s)

/-! ## The handlers of `initIconPickers` -/

section Handlers

variable (toLowerCase : String → String)

/-- The predicate of `LUCIDE_ICONS.filter` in `renderIcons`. -/
def matchesFilter (filter name : String) : Bool :=
  includes (toLowerCase name) (toLowerCase filter)

/-- Body of `renderIcons(filter)`. -/
def renderIconsBody (filter : String) : List Stmt :=
  [Stmt.gridClear]
    ++ (LUCIDE_ICONS.filter (matchesFilter toLowerCase filter)).map Stmt.gridAppend
    ++ [Stmt.createIcons .grid]

/-- Body of `closeModal()`. -/
def closeModalBody : List Stmt :=
  [Stmt.backdropAdd "hidden"]

/-- Body of `openModal()`. -/
def openModalBody : List Stmt :=
  [Stmt.backdropRemove "hidden"]
    ++ renderIconsBody toLowerCase ""
    ++ [Stmt.setSearchValue "", Stmt.focusSearch]

/-- Body of the click listener that `renderIcons` attaches to the button of
`name`. -/
def iconClickBody (name : String) : List Stmt :=
  [ Stmt.setCurrentValue name,
    Stmt.setInputValue name,
    Stmt.setPreviewHTML (placeholder name),
    Stmt.createIcons .preview ]
    ++ closeModalBody

/-- Where a click that reaches the backdrop listener originated: on the
backdrop element itself, or on one of its descendants (the panel, or any other
element inside, told apart by a number). -/
inductive ClickTarget where
  | backdrop
  | panel
  | descendant (id : Nat)
deriving DecidableEq, Repr

/-- Body run by the backdrop click listener: `if (e.target === modalBackdrop)
closeModal()`. -/
def backdropClickBody (target : ClickTarget) : List Stmt :=
  if target = ClickTarget.backdrop then closeModalBody else []

/-- Body of the initial preview at the end of the `forEach` round of one
picker. -/
def initialPreviewBody (currentValue : String) : List Stmt :=
  if currentValue ≠ "" then
    [Stmt.setPreviewHTML (placeholder currentValue), Stmt.createIcons .preview]
  else
    [Stmt.createIcons .preview]

/-- The function `renderIcons(filter)` as a state transformer. -/
def renderIcons (filter : String) (s : Picker) : Picker :=
  exec (renderIconsBody toLowerCase filter) s

/-- The function `openModal()` as a state transformer. -/
def openModal (s : Picker) : Picker :=
  exec (openModalBody toLowerCase) s

/-- The function `closeModal()` as a state transformer. -/
def closeModal (s : Picker) : Picker :=
  exec closeModalBody s

/-- The click listener of the button of `name` as a state transformer. -/
def iconClick (name : String) (s : Picker) : Picker :=
  exec (iconClickBody name) s

/-- The backdrop click listener as a state transformer. -/
def backdropClick (target : ClickTarget) (s : Picker) : Picker :=
  exec (backdropClickBody target) s

/-- The state in which the listeners of a picker start: `currentValue` is
`input.value || ""`, the DOM is the page's. -/
def startState (p : Page) : Picker :=
  { currentValue := orEmpty p.inputValue
    inputValue := p.inputValue
    previewHTML := p.previewHTML
    previewGlyphs := false
    backdropClasses := p.backdropClasses
    searchValue := p.searchValue
    searchFocused := p.searchFocused
    grid := p.gridChildren.map (fun c =>
      { type := "", className := c.className, iconName := c.iconName,
        innerHTML := c.innerHTML, onClick := none })
    gridGlyphs := false }

/-- One round of `pickers.forEach` in `initIconPickers`: the state of the picker
once it is constructed. -/
def initPicker (p : Page) : Picker :=
  exec (initialPreviewBody (orEmpty p.inputValue)) (startState p)

/-- The function `initIconPickers()` over the pickers found in the document. -/
def initIconPickers (pickers : List Page) : List Picker :=
  pickers.map initPicker

/-- The events a constructed picker reacts to. -/
inductive Event where
  /-- click on the open trigger -/
  | openClick
  /-- click on the close trigger -/
  | closeClick
  /-- click that reaches the backdrop listener -/
  | backdropClick (target : ClickTarget)
  /-- `input` event of the search field, whose value is now `text` -/
  | searchInput (text : String)
  /-- click on the `i`-th child of the grid -/
  | gridClick (i : Nat)
deriving DecidableEq, Repr

/-- The statements an event runs in state `s`. -/
def handlerBody (e : Event) (s : Picker) : List Stmt :=
  match e with
  | .openClick => openModalBody toLowerCase
  | .closeClick => closeModalBody
  | .backdropClick target => backdropClickBody target
  | .searchInput text => renderIconsBody toLowerCase text
  | .gridClick i =>
      match s.grid[i]? with
      | some b =>
          match b.onClick with
          | some name => iconClickBody name
          | none => []
      | none => []

/-- The state after an event.  For the `input` event the browser has stored the
typed text in the search field before the listener reads `e.target.value`.  A
click inside the modal also bubbles to the backdrop listener with a target other
than the backdrop, for which that listener runs nothing (`backdropClickBody`). -/
def step (e : Event) (s : Picker) : Picker :=
  match e with
  | .searchInput text =>
      exec (handlerBody toLowerCase e s) { s with searchValue := text }
  | _ => exec (handlerBody toLowerCase e s) s

/-- The state after a sequence of events. -/
def runEvents (events : List Event) (s : Picker) : Picker :=
  events.foldl (fun t e => step toLowerCase e t) s

end Handlers

/-! ## Observations and invariants -/

/-- The icon names of the grid's children, in document order. -/
def gridNames (s : Picker) : List String :=
  s.grid.map (fun b => b.iconName)

/-- Every click listener in the grid belongs to a catalog name. -/
def ListenersInCatalog (s : Picker) : Prop :=
  ∀ b ∈ s.grid, ∀ name, b.onClick = some name → name ∈ LUCIDE_ICONS

/-- The highlight of the grid agrees with `currentValue`. -/
def GridFresh (s : Picker) : Prop :=
  ∀ b ∈ s.grid, isMarked b = true ↔ b.iconName = s.currentValue

/-! ## Basic facts -/

theorem includes_iff (s search : String) :
    includes s search = true ↔ search.data <:+: s.data := by
  unfold includes
  rw [List.any_eq_true]
  constructor
  · rintro ⟨u, hu, hp⟩
    have hsuf : u <:+ s.data := (List.mem_tails _ _).1 hu
    have hpre : search.data <+: u := List.isPrefixOf_iff_prefix.1 hp
    exact List.IsInfix.trans hpre.isInfix hsuf.isInfix
  · intro h
    obtain ⟨u, hpre, hsuf⟩ := List.infix_iff_prefix_suffix.1 h
    exact ⟨u, (List.mem_tails _ _).2 hsuf, List.isPrefixOf_iff_prefix.2 hpre⟩

theorem includes_empty (s : String) : includes s "" = true := by
  rw [includes_iff]
  exact ⟨[], s.data, by simp⟩

theorem jsLowerCase_asciiLower : JSLowerCase asciiLower :=
  fun _ _ => rfl

theorem jsLowerCase_empty {toLowerCase : String → String} (h : JSLowerCase toLowerCase) :
    toLowerCase "" = "" := by
  rw [h "" (by decide)]
  decide

theorem matchesFilter_empty {toLowerCase : String → String} (h : JSLowerCase toLowerCase)
    (name : String) : matchesFilter toLowerCase "" name = true := by
  unfold matchesFilter
  rw [jsLowerCase_empty h]
  exact includes_empty _

theorem exec_append (a b : List Stmt) (s : Picker) :
    exec (a ++ b) s = exec b (exec a s) := by
  simp [exec, List.foldl_append]

theorem exec_gridAppend (names : List String) (s : Picker) (hg : s.gridGlyphs = false) :
    exec (names.map Stmt.gridAppend) s
      = { s with grid := s.grid ++ names.map (mkButton s.currentValue) } := by
  induction names generalizing s with
  | nil => simp [exec]
  | cons n rest ih =>
    have h := ih (Stmt.run (Stmt.gridAppend n) s) (by simp [Stmt.run])
    simp only [exec, List.map_cons, List.foldl_cons] at h ⊢
    rw [h]
    cases s
    simp_all [Stmt.run]

theorem renderIcons_eq (toLowerCase : String → String) (filter : String) (s : Picker) :
    renderIcons toLowerCase filter s
      = { s with
          grid := (LUCIDE_ICONS.filter (matchesFilter toLowerCase filter)).map
            (mkButton s.currentValue)
          gridGlyphs := true } := by
  unfold renderIcons renderIconsBody
  rw [exec_append, exec_append]
  have h0 : exec [Stmt.gridClear] s = { s with grid := [], gridGlyphs := false } := rfl
  rw [h0, exec_gridAppend _ _ rfl]
  simp [exec, Stmt.run]

theorem openModal_eq (toLowerCase : String → String) (s : Picker) :
    openModal toLowerCase s
      = { s with
          backdropClasses := classListRemove s.backdropClasses "hidden"
          grid := (LUCIDE_ICONS.filter (matchesFilter toLowerCase "")).map
            (mkButton s.currentValue)
          gridGlyphs := true
          searchValue := ""
          searchFocused := true } := by
  unfold openModal openModalBody
  rw [exec_append, exec_append]
  have h0 : exec [Stmt.backdropRemove "hidden"] s
      = { s with backdropClasses := classListRemove s.backdropClasses "hidden" } := rfl
  have h1 := renderIcons_eq toLowerCase ""
    { s with backdropClasses := classListRemove s.backdropClasses "hidden" }
  unfold renderIcons at h1
  rw [h0, h1]
  simp [exec, Stmt.run]

theorem closeModal_eq (s : Picker) :
    closeModal s = { s with backdropClasses := classListAdd s.backdropClasses "hidden" } :=
  rfl

theorem iconClick_eq (name : String) (s : Picker) :
    iconClick name s
      = { s with
          currentValue := name
          inputValue := some name
          previewHTML := placeholder name
          previewGlyphs := true
          backdropClasses := classListAdd s.backdropClasses "hidden" } :=
  rfl

theorem mem_classListAdd (cs : List String) (c : String) : c ∈ classListAdd cs c := by
  unfold classListAdd
  split <;> simp_all

theorem not_mem_classListRemove (cs : List String) (c : String) :
    c ∉ classListRemove cs c := by
  simp [classListRemove]

theorem isOpen_closeModal (s : Picker) : isOpen (closeModal s) = false := by
  simp [isOpen, closeModal_eq, mem_classListAdd]

theorem isOpen_iconClick (name : String) (s : Picker) : isOpen (iconClick name s) = false := by
  simp [isOpen, iconClick_eq, mem_classListAdd]

theorem isMarked_mkButton (currentValue name : String) :
    isMarked (mkButton currentValue name) = true ↔ name = currentValue := by
  unfold isMarked mkButton buttonClass
  by_cases h : currentValue = name
  · simp only [h, if_true]
    exact ⟨fun _ => trivial, fun _ => by decide⟩
  · simp only [h, if_false]
    constructor
    · intro hm
      have hf : includes (" ".intercalate
          [ "flex flex-col items-center justify-center gap-1 rounded-md border",
            "px-2 py-2 hover:bg-gray-50 text-xs", plainStyle ]) selectedStyle = false := by
        decide
      rw [hf] at hm
      exact absurd hm (by decide)
    · intro e
      exact absurd e.symm h

theorem catalog_nodup : LUCIDE_ICONS.Nodup := by decide

theorem empty_not_in_catalog : "" ∉ LUCIDE_ICONS := by decide

theorem catalog_ascii : ∀ n ∈ LUCIDE_ICONS, ∀ c ∈ n.data, c.toNat < 128 := by decide

theorem gridNames_map_mkButton (currentValue : String) (names : List String) :
    (names.map (mkButton currentValue)).map (fun b => b.iconName) = names := by
  induction names with
  | nil => rfl
  | cons n rest ih =>
    rw [List.map_cons, List.map_cons, ih]
    rfl

theorem filter_isMarked_map_mkButton (currentValue : String) (names : List String) :
    (names.map (mkButton currentValue)).filter isMarked
      = (names.filter (fun n => n == currentValue)).map (mkButton currentValue) := by
  induction names with
  | nil => rfl
  | cons n rest ih =>
    by_cases h : n = currentValue
    · have hm : isMarked (mkButton currentValue n) = true := (isMarked_mkButton _ _).2 h
      have hb : (n == currentValue) = true := by simp [h]
      rw [List.map_cons, List.filter_cons, if_pos hm, List.filter_cons, if_pos hb,
        List.map_cons, ih]
    · have hm : isMarked (mkButton currentValue n) = false := by
        cases hb : isMarked (mkButton currentValue n)
        · rfl
        · exact absurd ((isMarked_mkButton _ _).1 hb) h
      have hb : ¬ (n == currentValue) = true := by simp [h]
      rw [List.map_cons, List.filter_cons, if_neg (by simp [hm]), List.filter_cons,
        if_neg hb, ih]

theorem filter_eq_length_le_one (names : List String) (hn : names.Nodup) (v : String) :
    (names.filter (fun n => n == v)).length ≤ 1 := by
  have h := List.nodup_iff_count_le_one.1 hn v
  rw [List.count_eq_countP, List.countP_eq_length_filter] at h
  exact h

/-! ## Filtering -/

/-- C1: for every filter string, the icon names of the grid after
`renderIcons(filter)` are exactly the catalog names `n` for which
`toLowerCase(filter)` occurs in `toLowerCase(n)` as a contiguous run of
characters, in catalog order; the empty filter renders the whole catalog of 20
names, and a filter that matches no name leaves the grid empty. -/
theorem renderIcons_grid_is_filtered_catalog (toLowerCase : String → String)
    (hl : JSLowerCase toLowerCase) (filter : String) (s : Picker) :
    gridNames (renderIcons toLowerCase filter s)
        = LUCIDE_ICONS.filter
            (fun n => decide ((toLowerCase filter).data <:+: (toLowerCase n).data))
      ∧ gridNames (renderIcons toLowerCase "" s) = LUCIDE_ICONS
      ∧ LUCIDE_ICONS.length = 20
      ∧ ((∀ n ∈ LUCIDE_ICONS, ¬ (toLowerCase filter).data <:+: (toLowerCase n).data) →
          (renderIcons toLowerCase filter s).grid = []) := by
  have hp : ∀ n, matchesFilter toLowerCase filter n
      = decide ((toLowerCase filter).data <:+: (toLowerCase n).data) := by
    intro n
    rw [Bool.eq_iff_iff, decide_eq_true_iff]
    exact includes_iff _ _
  refine ⟨?_, ?_, rfl, ?_⟩
  · rw [renderIcons_eq]
    simp only [gridNames, gridNames_map_mkButton]
    exact List.filter_congr (fun n _ => hp n)
  · rw [renderIcons_eq]
    simp only [gridNames, gridNames_map_mkButton]
    exact List.filter_eq_self.2 (fun n _ => matchesFilter_empty hl n)
  · intro hno
    rw [renderIcons_eq]
    have : LUCIDE_ICONS.filter (matchesFilter toLowerCase filter) = [] := by
      rw [List.filter_eq_nil_iff]
      intro n hn
      rw [hp n, decide_eq_true_iff]
      exact hno n hn
    simp [this]

/-- Witness for `renderIcons_grid_is_filtered_catalog`: the ASCII lower-casing,
the filter `"AR"`, and a picker that is closed with an empty grid. -/
theorem renderIcons_grid_is_filtered_catalog_witness :
    JSLowerCase asciiLower
      ∧ gridNames (renderIcons asciiLower "AR"
          { currentValue := "", inputValue := none, previewHTML := "", previewGlyphs := false,
            backdropClasses := ["hidden"], searchValue := "", searchFocused := false,
            grid := [], gridGlyphs := false })
        = ["heart", "star", "bookmark", "calendar"] := by
  refine ⟨jsLowerCase_asciiLower, ?_⟩
  rw [(renderIcons_grid_is_filtered_catalog asciiLower jsLowerCase_asciiLower "AR" _).1]
  decide

/-- C2 fails as stated: `"heart"` contains `"ar"` (h-e-`a`-`r`-t), so the filter
`"ar"` selects it, and on the catalog `["heart", "star"]` the result is not
`["star"]`. -/
theorem filter_ar_keeps_heart :
    matchesFilter asciiLower "ar" "heart" = true
      ∧ ["heart", "star"].filter (matchesFilter asciiLower "ar") ≠ ["star"] := by
  decide

/-- C2, amended: with filter text `"ar"` the filter rule of `renderIcons`
selects both `"heart"` and `"star"`; on the two-entry catalog the result is
`["heart", "star"]`, and on `LUCIDE_ICONS` it is
`["heart", "star", "bookmark", "calendar"]`. -/
theorem filter_ar_result (toLowerCase : String → String) (hl : JSLowerCase toLowerCase) :
    ["heart", "star"].filter (matchesFilter toLowerCase "ar") = ["heart", "star"]
      ∧ LUCIDE_ICONS.filter (matchesFilter toLowerCase "ar")
          = ["heart", "star", "bookmark", "calendar"] := by
  have har : toLowerCase "ar" = asciiLower "ar" := hl "ar" (by decide)
  have hc : ∀ n ∈ LUCIDE_ICONS,
      matchesFilter toLowerCase "ar" n = matchesFilter asciiLower "ar" n := by
    intro n hn
    unfold matchesFilter
    rw [har, hl n (catalog_ascii n hn)]
  constructor
  · rw [List.filter_congr (fun n hn => hc n (by revert hn; revert n; decide))]
    decide
  · rw [List.filter_congr hc]
    decide

/-- Witness for `filter_ar_result`, at the ASCII lower-casing. -/
theorem filter_ar_result_witness :
    JSLowerCase asciiLower
      ∧ ["heart", "star"].filter (matchesFilter asciiLower "ar") = ["heart", "star"]
      ∧ LUCIDE_ICONS.filter (matchesFilter asciiLower "ar")
          = ["heart", "star", "bookmark", "calendar"] :=
  ⟨jsLowerCase_asciiLower, filter_ar_result asciiLower jsLowerCase_asciiLower⟩

/-! ## Selection -/

/-- C3: the click listener of the grid entry for `name` passes through the
states `s1 .. s5`, one per statement: first `currentValue` becomes `name` (input,
preview and backdrop still as before), then the backing input's value becomes
`name`, then the preview markup becomes the placeholder of `name` (on which the
glyph renderer is then run), and last the backdrop receives `hidden`.  The final
state has all four effects, and it is the state reached by a click on any grid
child that `renderIcons` built for `name`. -/
theorem iconClick_effects_in_order (name : String) (s : Picker) :
    ∃ s1 s2 s3 s4 s5 : Picker,
      statesOf (iconClickBody name) s = [s, s1, s2, s3, s4, s5]
      ∧ iconClick name s = s5
      ∧ (s1.currentValue = name ∧ s1.inputValue = s.inputValue
          ∧ s1.previewHTML = s.previewHTML ∧ s1.backdropClasses = s.backdropClasses)
      ∧ (s2.currentValue = name ∧ s2.inputValue = some name
          ∧ s2.previewHTML = s.previewHTML ∧ s2.backdropClasses = s.backdropClasses)
      ∧ (s3.currentValue = name ∧ s3.inputValue = some name
          ∧ s3.previewHTML = placeholder name ∧ s3.backdropClasses = s.backdropClasses)
      ∧ (s4.currentValue = name ∧ s4.inputValue = some name
          ∧ s4.previewHTML = placeholder name ∧ s4.previewGlyphs = true
          ∧ s4.backdropClasses = s.backdropClasses)
      ∧ (s5.currentValue = name ∧ s5.inputValue = some name
          ∧ s5.previewHTML = placeholder name ∧ s5.previewGlyphs = true
          ∧ "hidden" ∈ s5.backdropClasses ∧ isOpen s5 = false)
      ∧ (∀ (toLowerCase : String → String) (i : Nat) (currentValue : String),
          s.grid[i]? = some (mkButton currentValue name) →
            step toLowerCase (Event.gridClick i) s = s5) := by
  refine ⟨_, _, _, _, _, rfl, rfl, ⟨rfl, rfl, rfl, rfl⟩, ⟨rfl, rfl, rfl, rfl⟩,
    ⟨rfl, rfl, rfl, rfl⟩, ⟨rfl, rfl, rfl, rfl, rfl⟩, ⟨rfl, rfl, rfl, rfl, ?_, ?_⟩, ?_⟩
  · exact mem_classListAdd _ _
  · exact isOpen_iconClick name s
  · intro toLowerCase i currentValue hi
    simp only [step, handlerBody, hi, mkButton]
    rfl

/-- Witness for `iconClick_effects_in_order`: an open picker whose grid shows
`"star"`, clicked on that entry. -/
theorem iconClick_effects_in_order_witness :
    step asciiLower (Event.gridClick 0)
        { currentValue := "heart", inputValue := some "heart", previewHTML := placeholder "heart",
          previewGlyphs := true, backdropClasses := ["modal"], searchValue := "st",
          searchFocused := true, grid := [mkButton "heart" "star"], gridGlyphs := true }
      = { currentValue := "star", inputValue := some "star", previewHTML := placeholder "star",
          previewGlyphs := true, backdropClasses := ["modal", "hidden"], searchValue := "st",
          searchFocused := true, grid := [mkButton "heart" "star"], gridGlyphs := true } := by
  obtain ⟨s1, s2, s3, s4, s5, _, h5, _, _, _, _, _, hclick⟩ :=
    iconClick_effects_in_order "star"
      { currentValue := "heart", inputValue := some "heart", previewHTML := placeholder "heart",
        previewGlyphs := true, backdropClasses := ["modal"], searchValue := "st",
        searchFocused := true, grid := [mkButton "heart" "star"], gridGlyphs := true }
  rw [hclick asciiLower 0 "heart" rfl, ← h5]
  rfl

/-! ## Opening and closing -/

/-- C4: whatever the search text, the grid and the backdrop classes were,
`openModal` ends in a state where the modal is open, the search field is empty
and the grid shows every name of `LUCIDE_ICONS` in catalog order. -/
theorem openModal_resets (toLowerCase : String → String) (hl : JSLowerCase toLowerCase)
    (s : Picker) :
    isOpen (openModal toLowerCase s) = true
      ∧ (openModal toLowerCase s).searchValue = ""
      ∧ gridNames (openModal toLowerCase s) = LUCIDE_ICONS := by
  rw [openModal_eq]
  refine ⟨?_, rfl, ?_⟩
  · simp [isOpen, not_mem_classListRemove]
  · simp only [gridNames, gridNames_map_mkButton]
    exact List.filter_eq_self.2 (fun n _ => matchesFilter_empty hl n)

/-- Witness for `openModal_resets`: a closed picker whose search field still
holds `"xyz"` and whose grid is empty. -/
theorem openModal_resets_witness :
    JSLowerCase asciiLower
      ∧ isOpen (openModal asciiLower
          { currentValue := "sun", inputValue := some "sun", previewHTML := placeholder "sun",
            previewGlyphs := true, backdropClasses := ["modal", "hidden"], searchValue := "xyz",
            searchFocused := false, grid := [], gridGlyphs := true }) = true
      ∧ (openModal asciiLower
          { currentValue := "sun", inputValue := some "sun", previewHTML := placeholder "sun",
            previewGlyphs := true, backdropClasses := ["modal", "hidden"], searchValue := "xyz",
            searchFocused := false, grid := [], gridGlyphs := true }).searchValue = ""
      ∧ gridNames (openModal asciiLower
          { currentValue := "sun", inputValue := some "sun", previewHTML := placeholder "sun",
            previewGlyphs := true, backdropClasses := ["modal", "hidden"], searchValue := "xyz",
            searchFocused := false, grid := [], gridGlyphs := true }) = LUCIDE_ICONS :=
  ⟨jsLowerCase_asciiLower, openModal_resets asciiLower jsLowerCase_asciiLower _⟩

/-- C9: `closeModal` is idempotent, and on a picker that is already closed it
changes nothing at all. -/
theorem closeModal_idempotent (s : Picker) :
    closeModal (closeModal s) = closeModal s
      ∧ (isOpen s = false → closeModal s = s) := by
  constructor
  · rw [closeModal_eq (closeModal s)]
    have h : "hidden" ∈ (closeModal s).backdropClasses := mem_classListAdd _ _
    simp [classListAdd, h]
  · intro hc
    have h : "hidden" ∈ s.backdropClasses := by simpa [isOpen] using hc
    rw [closeModal_eq]
    simp [classListAdd, h]

/-- Witness for `closeModal_idempotent`: a closed picker. -/
theorem closeModal_idempotent_witness :
    closeModal
        { currentValue := "sun", inputValue := some "sun", previewHTML := placeholder "sun",
          previewGlyphs := true, backdropClasses := ["modal", "hidden"], searchValue := "s",
          searchFocused := false, grid := [mkButton "sun" "sun"], gridGlyphs := true }
      = { currentValue := "sun", inputValue := some "sun", previewHTML := placeholder "sun",
          previewGlyphs := true, backdropClasses := ["modal", "hidden"], searchValue := "s",
          searchFocused := false, grid := [mkButton "sun" "sun"], gridGlyphs := true } :=
  (closeModal_idempotent _).2 (by decide)

/-- C8: the backdrop listener runs `closeModal` exactly when the click
originated on the backdrop itself; then the modal is closed afterwards.  For any
other target nothing is run and the state is unchanged.  Hence an open modal is
closed by the click if and only if its target is the backdrop. -/
theorem backdropClick_closes_iff_target (target : ClickTarget) (s : Picker) :
    (backdropClickBody target = closeModalBody ↔ target = ClickTarget.backdrop)
      ∧ (target = ClickTarget.backdrop →
          backdropClick target s = closeModal s ∧ isOpen (backdropClick target s) = false)
      ∧ (target ≠ ClickTarget.backdrop → backdropClick target s = s)
      ∧ (isOpen s = true →
          (isOpen (backdropClick target s) = false ↔ target = ClickTarget.backdrop)) := by
  by_cases h : target = ClickTarget.backdrop
  · subst h
    refine ⟨⟨fun _ => rfl, fun _ => rfl⟩, fun _ => ⟨rfl, isOpen_closeModal s⟩,
      fun hne => absurd rfl hne, fun _ => ⟨fun _ => rfl, fun _ => isOpen_closeModal s⟩⟩
  · have hb : backdropClickBody target = [] := by simp [backdropClickBody, h]
    have hs : backdropClick target s = s := by simp [backdropClick, hb, exec]
    refine ⟨⟨fun e => ?_, fun e => absurd e h⟩, fun e => absurd e h, fun _ => hs, fun ho => ?_⟩
    · rw [hb] at e
      exact absurd e (by decide)
    · rw [hs, ho]
      exact ⟨fun e => absurd e (by decide), fun e => absurd e h⟩

/-- Witness for `backdropClick_closes_iff_target`: an open picker, clicked once
on the backdrop and once on the panel. -/
theorem backdropClick_closes_iff_target_witness :
    isOpen (backdropClick ClickTarget.backdrop
        { currentValue := "", inputValue := none, previewHTML := "", previewGlyphs := true,
          backdropClasses := ["modal"], searchValue := "", searchFocused := true,
          grid := [], gridGlyphs := true }) = false
      ∧ backdropClick ClickTarget.panel
          { currentValue := "", inputValue := none, previewHTML := "", previewGlyphs := true,
            backdropClasses := ["modal"], searchValue := "", searchFocused := true,
            grid := [], gridGlyphs := true }
        = { currentValue := "", inputValue := none, previewHTML := "", previewGlyphs := true,
            backdropClasses := ["modal"], searchValue := "", searchFocused := true,
            grid := [], gridGlyphs := true } :=
  ⟨((backdropClick_closes_iff_target ClickTarget.backdrop _).2.1 rfl).2,
   (backdropClick_closes_iff_target ClickTarget.panel _).2.2.1 (by decide)⟩

/-! ## Highlighting -/

/-- C5: in the grid produced by `renderIcons`, an entry is marked selected if
and only if its name equals `currentValue` (which the rendering leaves as it
was); at most one entry is marked; none is marked when `currentValue` is empty
or does not occur among the rendered names. -/
theorem renderIcons_marks_selected (toLowerCase : String → String) (filter : String)
    (s : Picker) :
    (renderIcons toLowerCase filter s).currentValue = s.currentValue
      ∧ (∀ b ∈ (renderIcons toLowerCase filter s).grid,
          isMarked b = true ↔ b.iconName = s.currentValue)
      ∧ ((renderIcons toLowerCase filter s).grid.filter isMarked).length ≤ 1
      ∧ (s.currentValue = "" →
          (renderIcons toLowerCase filter s).grid.filter isMarked = [])
      ∧ (s.currentValue ∉ gridNames (renderIcons toLowerCase filter s) →
          (renderIcons toLowerCase filter s).grid.filter isMarked = []) := by
  have hiff : ∀ b ∈ (renderIcons toLowerCase filter s).grid,
      isMarked b = true ↔ b.iconName = s.currentValue := by
    intro b hb
    rw [renderIcons_eq] at hb
    obtain ⟨n, _, rfl⟩ := List.mem_map.1 hb
    exact isMarked_mkButton _ _
  have hsub : ∀ b ∈ (renderIcons toLowerCase filter s).grid, b.iconName ∈ LUCIDE_ICONS := by
    intro b hb
    rw [renderIcons_eq] at hb
    obtain ⟨n, hn, rfl⟩ := List.mem_map.1 hb
    exact (List.mem_filter.1 hn).1
  refine ⟨by rw [renderIcons_eq], hiff, ?_, ?_, ?_⟩
  · rw [renderIcons_eq]
    simp only [filter_isMarked_map_mkButton, List.length_map]
    exact filter_eq_length_le_one _ (catalog_nodup.filter _) _
  · intro he
    rw [List.filter_eq_nil_iff]
    intro b hb hm
    have hname := (hiff b hb).1 hm
    have hin := hsub b hb
    rw [hname, he] at hin
    exact empty_not_in_catalog hin
  · intro hnot
    rw [List.filter_eq_nil_iff]
    intro b hb hm
    have hname := (hiff b hb).1 hm
    exact hnot (hname ▸ List.mem_map.2 ⟨b, hb, rfl⟩)

/-- Witness for `renderIcons_marks_selected`: with `currentValue = "star"` and
filter `"ar"` the only marked entry is the one of `"star"`; with filter `"su"`
the entry of `"star"` is filtered out and none is marked. -/
theorem renderIcons_marks_selected_witness :
    ((renderIcons asciiLower "ar"
          { currentValue := "star", inputValue := some "star", previewHTML := "",
            previewGlyphs := true, backdropClasses := [], searchValue := "ar",
            searchFocused := true, grid := [], gridGlyphs := false }).grid.filter isMarked).map
        (fun b => b.iconName) = ["star"]
      ∧ (renderIcons asciiLower "su"
          { currentValue := "star", inputValue := some "star", previewHTML := "",
            previewGlyphs := true, backdropClasses := [], searchValue := "su",
            searchFocused := true, grid := [], gridGlyphs := false }).grid.filter isMarked
        = [] :=
  ⟨by decide,
   (renderIcons_marks_selected asciiLower "su"
      { currentValue := "star", inputValue := some "star", previewHTML := "",
        previewGlyphs := true, backdropClasses := [], searchValue := "su",
        searchFocused := true, grid := [], gridGlyphs := false }).2.2.2.2 (by decide)⟩

/-! ## Construction -/

/-- C7: a picker constructed over a backing input that holds the catalog value
`v` has `currentValue = v` and the placeholder of `v` as preview markup, with no
event needed; when the input has no value or an empty one, `currentValue` is
empty and the preview markup is the page's (the glyph renderer is still run over
it). -/
theorem initPicker_seeds_value_and_preview (p : Page) :
    (∀ v ∈ LUCIDE_ICONS, p.inputValue = some v →
        (initPicker p).currentValue = v
          ∧ (initPicker p).previewHTML = placeholder v
          ∧ (initPicker p).previewGlyphs = true
          ∧ (initPicker p).inputValue = some v)
      ∧ ((p.inputValue = none ∨ p.inputValue = some "") →
          (initPicker p).currentValue = ""
            ∧ (initPicker p).previewHTML = p.previewHTML
            ∧ (initPicker p).previewGlyphs = true
            ∧ (initPicker p).inputValue = p.inputValue) := by
  constructor
  · intro v hv hp
    have hne : v ≠ "" := fun e => empty_not_in_catalog (e ▸ hv)
    simp [initPicker, initialPreviewBody, hp, orEmpty, hne, exec, Stmt.run, startState]
  · intro hp
    have he : orEmpty p.inputValue = "" := by
      rcases hp with h | h <;> simp [h, orEmpty]
    simp [initPicker, initialPreviewBody, he, exec, Stmt.run, startState]

/-- Witness for `initPicker_seeds_value_and_preview`: a page whose backing
input holds `"gift"`. -/
theorem initPicker_seeds_value_and_preview_witness :
    (initPicker
        { inputValue := some "gift", previewHTML := "<span>?</span>",
          backdropClasses := ["modal", "hidden"], searchValue := "", searchFocused := false,
          gridChildren := [] }).currentValue = "gift"
      ∧ (initPicker
        { inputValue := some "gift", previewHTML := "<span>?</span>",
          backdropClasses := ["modal", "hidden"], searchValue := "", searchFocused := false,
          gridChildren := [] }).previewHTML = "<i data-lucide=\"gift\"></i>" := by
  have h := (initPicker_seeds_value_and_preview
    { inputValue := some "gift", previewHTML := "<span>?</span>",
      backdropClasses := ["modal", "hidden"], searchValue := "", searchFocused := false,
      gridChildren := [] }).1 "gift" (by decide) rfl
  exact ⟨h.1, h.2.1.trans (by decide)⟩

/-! ## Reachable states -/

theorem step_openClick (toLowerCase : String → String) (s : Picker) :
    step toLowerCase Event.openClick s = openModal toLowerCase s :=
  rfl

theorem step_closeClick (toLowerCase : String → String) (s : Picker) :
    step toLowerCase Event.closeClick s = closeModal s :=
  rfl

theorem step_backdropClick (toLowerCase : String → String) (target : ClickTarget)
    (s : Picker) :
    step toLowerCase (Event.backdropClick target) s
      = if target = ClickTarget.backdrop then closeModal s else s := by
  by_cases h : target = ClickTarget.backdrop
  · subst h
    rfl
  · simp [step, handlerBody, backdropClickBody, h, exec]

theorem step_searchInput (toLowerCase : String → String) (text : String) (s : Picker) :
    step toLowerCase (Event.searchInput text) s
      = renderIcons toLowerCase text { s with searchValue := text } :=
  rfl

theorem step_gridClick (toLowerCase : String → String) (i : Nat) (s : Picker) :
    step toLowerCase (Event.gridClick i) s = s
      ∨ ∃ b ∈ s.grid, ∃ name, b.onClick = some name
          ∧ step toLowerCase (Event.gridClick i) s = iconClick name s := by
  cases hg : s.grid[i]? with
  | none =>
    left
    simp [step, handlerBody, hg, exec]
  | some b =>
    cases hc : b.onClick with
    | none =>
      left
      simp [step, handlerBody, hg, hc, exec]
    | some name =>
      right
      refine ⟨b, List.getElem?_mem hg, name, hc, ?_⟩
      simp [step, handlerBody, hg, hc, iconClick]

theorem listenersInCatalog_rendered (names : List String) (hn : ∀ n ∈ names, n ∈ LUCIDE_ICONS)
    (currentValue : String) (s : Picker) (hg : s.grid = names.map (mkButton currentValue)) :
    ListenersInCatalog s := by
  intro b hb name hc
  rw [hg] at hb
  obtain ⟨n, hmem, rfl⟩ := List.mem_map.1 hb
  have : n = name := by simpa [mkButton] using hc
  exact this ▸ hn n hmem

theorem gridFresh_rendered (names : List String) (s : Picker)
    (hg : s.grid = names.map (mkButton s.currentValue)) : GridFresh s := by
  intro b hb
  rw [hg] at hb
  obtain ⟨n, _, rfl⟩ := List.mem_map.1 hb
  exact isMarked_mkButton _ _

theorem step_value_inv (toLowerCase : String → String) (v : String) (e : Event) (s : Picker)
    (h : (s.currentValue = v ∨ s.currentValue ∈ LUCIDE_ICONS) ∧ ListenersInCatalog s) :
    ((step toLowerCase e s).currentValue = v
        ∨ (step toLowerCase e s).currentValue ∈ LUCIDE_ICONS)
      ∧ ListenersInCatalog (step toLowerCase e s) := by
  obtain ⟨hv, hl⟩ := h
  cases e with
  | openClick =>
    rw [step_openClick, openModal_eq]
    exact ⟨hv, listenersInCatalog_rendered _ (fun n hn => (List.mem_filter.1 hn).1) _ _ rfl⟩
  | closeClick =>
    rw [step_closeClick, closeModal_eq]
    exact ⟨hv, hl⟩
  | backdropClick target =>
    rw [step_backdropClick]
    split
    · rw [closeModal_eq]
      exact ⟨hv, hl⟩
    · exact ⟨hv, hl⟩
  | searchInput text =>
    rw [step_searchInput, renderIcons_eq]
    exact ⟨hv, listenersInCatalog_rendered _ (fun n hn => (List.mem_filter.1 hn).1) _ _ rfl⟩
  | gridClick i =>
    rcases step_gridClick toLowerCase i s with h | ⟨b, hb, name, hc, h⟩
    · rw [h]
      exact ⟨hv, hl⟩
    · rw [h, iconClick_eq]
      exact ⟨Or.inr (hl b hb name hc), hl⟩

theorem step_fresh_inv (toLowerCase : String → String) (e : Event) (s : Picker)
    (h : isOpen s = true → GridFresh s) :
    isOpen (step toLowerCase e s) = true → GridFresh (step toLowerCase e s) := by
  cases e with
  | openClick =>
    intro _
    rw [step_openClick, openModal_eq]
    exact gridFresh_rendered _ _ rfl
  | closeClick =>
    rw [step_closeClick, isOpen_closeModal]
    intro hc
    exact absurd hc (by decide)
  | backdropClick target =>
    rw [step_backdropClick]
    split
    · rw [isOpen_closeModal]
      intro hc
      exact absurd hc (by decide)
    · exact h
  | searchInput text =>
    intro _
    rw [step_searchInput, renderIcons_eq]
    exact gridFresh_rendered _ _ rfl
  | gridClick i =>
    rcases step_gridClick toLowerCase i s with hs | ⟨b, _, name, _, hs⟩
    · rw [hs]
      exact h
    · rw [hs, isOpen_iconClick]
      intro hc
      exact absurd hc (by decide)

theorem runEvents_append_one (toLowerCase : String → String) (events : List Event) (e : Event)
    (s : Picker) :
    runEvents toLowerCase (events ++ [e]) s
      = step toLowerCase e (runEvents toLowerCase events s) := by
  simp [runEvents, List.foldl_append]

theorem initPicker_value (p : Page) :
    (initPicker p).currentValue = orEmpty p.inputValue
      ∧ ListenersInCatalog (initPicker p)
      ∧ (initPicker p).backdropClasses = p.backdropClasses := by
  have hgrid : ∀ b ∈ (startState p).grid, b.onClick = none := by
    intro b hb
    obtain ⟨c, _, rfl⟩ := List.mem_map.1 hb
    rfl
  have hl : ListenersInCatalog (startState p) := by
    intro b hb name hc
    rw [hgrid b hb] at hc
    exact absurd hc (by simp)
  unfold initPicker initialPreviewBody
  split
  · exact ⟨rfl, hl, rfl⟩
  · exact ⟨rfl, hl, rfl⟩

/-- C6 fails as stated: a picker constructed over a backing input that holds
`"rocket"` has, before any event, a `currentValue` that is neither empty nor in
the catalog. -/
theorem currentValue_outside_catalog :
    (runEvents asciiLower []
        (initPicker
          { inputValue := some "rocket", previewHTML := "", backdropClasses := ["hidden"],
            searchValue := "", searchFocused := false, gridChildren := [] })).currentValue
        = "rocket"
      ∧ "rocket" ≠ ""
      ∧ "rocket" ∉ LUCIDE_ICONS := by
  decide

/-- C6, amended: if the backing input has no value at construction, or an
empty one, or a catalog name, then in every state reached by any sequence of
open, close, backdrop-click, filter and grid-click events `currentValue` is
empty or a catalog name. -/
theorem currentValue_empty_or_in_catalog (toLowerCase : String → String) (p : Page)
    (events : List Event)
    (hp : ∀ v, p.inputValue = some v → v = "" ∨ v ∈ LUCIDE_ICONS) :
    (runEvents toLowerCase events (initPicker p)).currentValue = ""
      ∨ (runEvents toLowerCase events (initPicker p)).currentValue ∈ LUCIDE_ICONS := by
  have hstart : orEmpty p.inputValue = "" ∨ orEmpty p.inputValue ∈ LUCIDE_ICONS := by
    cases hi : p.inputValue with
    | none => exact Or.inl rfl
    | some v => exact hp v hi
  have hinv : ((runEvents toLowerCase events (initPicker p)).currentValue = ""
        ∨ (runEvents toLowerCase events (initPicker p)).currentValue ∈ LUCIDE_ICONS)
      ∧ ListenersInCatalog (runEvents toLowerCase events (initPicker p)) := by
    induction events using List.reverseRecOn with
    | nil =>
      obtain ⟨hv, hl, _⟩ := initPicker_value p
      refine ⟨?_, hl⟩
      show (initPicker p).currentValue = "" ∨ (initPicker p).currentValue ∈ LUCIDE_ICONS
      rw [hv]
      exact hstart
    | append_singleton es e ih =>
      rw [runEvents_append_one]
      exact step_value_inv toLowerCase "" e _ ih
  exact hinv.1

/-- Witness for `currentValue_empty_or_in_catalog`: a page whose input holds
`"sun"`; the modal is opened, filtered by `"OK"`, and its second entry is
clicked. -/
theorem currentValue_empty_or_in_catalog_witness :
    (runEvents asciiLower [Event.openClick, Event.searchInput "OK", Event.gridClick 1]
        (initPicker
          { inputValue := some "sun", previewHTML := "", backdropClasses := ["hidden"],
            searchValue := "", searchFocused := false, gridChildren := [] })).currentValue = ""
      ∨ (runEvents asciiLower [Event.openClick, Event.searchInput "OK", Event.gridClick 1]
        (initPicker
          { inputValue := some "sun", previewHTML := "", backdropClasses := ["hidden"],
            searchValue := "", searchFocused := false, gridChildren := [] })).currentValue
        ∈ LUCIDE_ICONS :=
  currentValue_empty_or_in_catalog asciiLower _ _ (by
    intro v hv
    have : v = "sun" := by simpa using hv.symm
    subst this
    exact Or.inr (by decide))

/-- C10: in every state reached from a picker constructed closed, by any
sequence of open, close, backdrop-click, filter and grid-click events, if the
modal is open then a grid entry is marked selected exactly when its name equals
`currentValue`. -/
theorem open_grid_highlight_is_current (toLowerCase : String → String) (p : Page)
    (events : List Event) (hclosed : isOpen (initPicker p) = false) :
    isOpen (runEvents toLowerCase events (initPicker p)) = true →
      ∀ b ∈ (runEvents toLowerCase events (initPicker p)).grid,
        isMarked b = true ↔ b.iconName = (runEvents toLowerCase events (initPicker p)).currentValue := by
  induction events using List.reverseRecOn with
  | nil =>
    intro ho
    have : isOpen (initPicker p) = true := ho
    rw [hclosed] at this
    exact absurd this (by decide)
  | append_singleton es e ih =>
    rw [runEvents_append_one]
    exact step_fresh_inv toLowerCase e _ ih

/-- Witness for `open_grid_highlight_is_current`: the page starts closed with
`"sun"` selected; the modal is opened, `"book"` is picked from the filtered grid
(which closes the modal) and the modal is opened again. -/
theorem open_grid_highlight_is_current_witness :
    isOpen (initPicker
        { inputValue := some "sun", previewHTML := "", backdropClasses := ["hidden"],
          searchValue := "", searchFocused := false, gridChildren := [] }) = false
      ∧ ∀ b ∈ (runEvents asciiLower
            [Event.openClick, Event.searchInput "OK", Event.gridClick 1, Event.openClick]
            (initPicker
              { inputValue := some "sun", previewHTML := "", backdropClasses := ["hidden"],
                searchValue := "", searchFocused := false, gridChildren := [] })).grid,
          isMarked b = true ↔ b.iconName = "book" :=
  ⟨by decide,
   open_grid_highlight_is_current asciiLower
     { inputValue := some "sun", previewHTML := "", backdropClasses := ["hidden"],
       searchValue := "", searchFocused := false, gridChildren := [] }
     [Event.openClick, Event.searchInput "OK", Event.gridClick 1, Event.openClick]
     (by decide) (by decide)⟩

end IconPicker
